import Mathlib

/-!
Verification of the rogue2 authoritative game server core (Rust) against its
natural-language specification.  The Rust source is shallowly embedded: machine
floats (`f32`) on game coordinates are modelled by exact rationals `ℚ` (the
source's `sqrt(d) <= r` comparisons are modelled by the equivalent squared
comparison `d <= r^2`), `std::time::Instant` is modelled by a natural-number
timestamp in the unit the source reads it in, Rust `u32` arithmetic is modelled
by `Nat` with explicit `% 2^32` where the source can wrap, and `hecs` entity
handles are modelled by naturals allocated by a fresh counter (hecs handles are
generational: a handle never equals the handle of a previously despawned
entity).  `HashMap`s are modelled by association lists with unique keys
(lookup finds the first matching key), `HashSet`s of chunk coordinates by
`Finset`.
-/

/-- Entity id: model of a `hecs::Entity` handle (and of the `u32` produced by
`entity.to_bits().get() as u32` in the delta tracker, which is injective on
live handles). -/
abbrev EId := Nat

/-- Association-list lookup, the model of `HashMap::get`: first entry whose key
matches.  Source maps have unique keys, so first-match is exact. -/
def lookupA {α : Type} : List (Nat × α) → Nat → Option α
  | [], _ => none
  | p :: l, k => if p.1 = k then some p.2 else lookupA l k

/-- `ecs/components.rs` `Position { x: f32, y: f32 }`, coordinates modelled
exactly over `ℚ`. -/
structure Position where
  x : ℚ
  y : ℚ
  deriving DecidableEq, Repr

/-- `ecs/components.rs` `Velocity { dx: f32, dy: f32 }`. -/
structure Velocity where
  dx : ℚ
  dy : ℚ
  deriving DecidableEq, Repr

/-- `sync.rs` `VISION_RANGE_PIXELS: f32 = 640.0` (20 tiles * 32 pixels). -/
def VISION_RANGE_PIXELS : ℚ := 640

/-- `sync.rs` `EntityChanges`: `spawned: Vec<Entity>`, `updated:
HashSet<Entity>` (modelled as a list; only membership matters), `despawned:
Vec<u32>`. -/
structure EntityChanges where
  spawned : List EId
  updated : List EId
  despawned : List EId
  deriving DecidableEq, Repr

/-- The world as the vision filter sees it: the `Position` column, i.e. the
result of `world.get::<&Position>(entity)` for each entity.  Entities that
carry no `Position` are simply absent. -/
abbrev SyncWorld := List (EId × Position)

/-- `sync.rs` `filter_changes_by_vision`'s closure `is_in_range`: looks up the
entity's `Position`; with `pos` present it computes
`sqrt((pos.x-px)^2 + (pos.y-py)^2) <= VISION_RANGE_PIXELS`, which (both sides
nonnegative, `sqrt` monotone) is the squared comparison below; entities
without a `Position` yield `false`. -/
def is_in_range (w : SyncWorld) (playerPos : Position) (e : EId) : Bool :=
  match lookupA w e with
  | some pos =>
      decide ((pos.x - playerPos.x) ^ 2 + (pos.y - playerPos.y) ^ 2 ≤
        VISION_RANGE_PIXELS ^ 2)
  | none => false

/-- `sync.rs` `filter_changes_by_vision`: keeps the spawned and updated
entities that are in range of `playerPos` and clones `despawned` unfiltered. -/
def filter_changes_by_vision (w : SyncWorld) (changes : EntityChanges)
    (playerPos : Position) : EntityChanges :=
  { spawned := changes.spawned.filter (fun e => is_in_range w playerPos e)
    updated := changes.updated.filter (fun e => is_in_range w playerPos e)
    despawned := changes.despawned }

/-- `sync.rs` `DeltaTracker`: previous-tick positions, accumulating spawned
and despawned sets (both `HashSet`s, modelled as duplicate-free-by-insert
lists). -/
structure DeltaTracker where
  lastPositions : List (EId × Position)
  newlySpawned : List EId
  despawned : List EId
  deriving DecidableEq, Repr

/-- `DeltaTracker::new`. -/
def DeltaTracker.new : DeltaTracker :=
  { lastPositions := [], newlySpawned := [], despawned := [] }

/-- `DeltaTracker::mark_spawned`: `HashSet::insert`. -/
def DeltaTracker.mark_spawned (t : DeltaTracker) (e : EId) : DeltaTracker :=
  { t with newlySpawned :=
      if e ∈ t.newlySpawned then t.newlySpawned else e :: t.newlySpawned }

/-- `DeltaTracker::mark_despawned`: records the id and drops the entity from
`last_positions`. -/
def DeltaTracker.mark_despawned (t : DeltaTracker) (e : EId) : DeltaTracker :=
  { t with
      despawned := if e ∈ t.despawned then t.despawned else e :: t.despawned
      lastPositions := t.lastPositions.filter (fun p => decide (p.1 ≠ e)) }

/-- The per-entity movement test of `DeltaTracker::update`: position changed
by more than `0.01` pixels on either axis against the snapshot (entities with
no snapshot entry are not flagged). -/
def movedSinceSnapshot (lastPos : List (EId × Position)) (p : EId × Position) :
    Bool :=
  match lookupA lastPos p.1 with
  | some lp => decide (|p.2.x - lp.x| > 1 / 100 ∨ |p.2.y - lp.y| > 1 / 100)
  | none => false

/-- `DeltaTracker::update`: flags `updated` from the position snapshot,
replaces the snapshot with the current positions and drains the spawned and
despawned accumulators into the returned `EntityChanges`. -/
def DeltaTracker.update (t : DeltaTracker) (w : SyncWorld) :
    EntityChanges × DeltaTracker :=
  ({ spawned := t.newlySpawned
     updated := (w.filter (fun p => movedSinceSnapshot t.lastPositions p)).map
       (fun p => p.1)
     despawned := t.despawned },
   { lastPositions := w, newlySpawned := [], despawned := [] })

/-- Tracker states reachable through the tracker's three mutators.
`mark_spawned` is only ever called (in `GameState::add_player` and
`spawn_monster` call sites) on an entity freshly allocated by `world.spawn`;
a fresh hecs handle was never recorded in `last_positions` (despawn removes
the entry and handles are generational), which the side condition captures. -/
inductive TrackerReachable : DeltaTracker → Prop
  | base : TrackerReachable DeltaTracker.new
  | stepSpawn {t : DeltaTracker} (e : EId) (ht : TrackerReachable t)
      (hfresh : lookupA t.lastPositions e = none) :
      TrackerReachable (t.mark_spawned e)
  | stepDespawn {t : DeltaTracker} (e : EId) (ht : TrackerReachable t) :
      TrackerReachable (t.mark_despawned e)
  | stepUpdate {t : DeltaTracker} (w : SyncWorld) (ht : TrackerReachable t) :
      TrackerReachable (t.update w).2

/-- `map/chunks.rs` `ChunkSystem`: for the streaming diff only the chunk-grid
dimensions matter (`map_width_chunks`, `map_height_chunks`); the chunk payloads
themselves are not involved in claim C2. -/
structure ChunkSystem where
  mapWidthChunks : ℕ
  mapHeightChunks : ℕ
  deriving DecidableEq, Repr

/-- `map/chunks.rs` `world_to_chunk`: `floor(world / tile_size) as i32`, then
Rust `i32` division by `CHUNK_SIZE = 32` (truncation toward zero, `Int.tdiv`). -/
def world_to_chunk (worldX worldY : ℚ) (tileSize : ℕ) : ℤ × ℤ :=
  let tileX : ℤ := ⌊worldX / (tileSize : ℚ)⌋
  let tileY : ℤ := ⌊worldY / (tileSize : ℚ)⌋
  (tileX.tdiv 32, tileY.tdiv 32)

/-- `map/chunks.rs` `ChunkSystem::get_chunks_for_position`: the 3x3 grid of
chunk coordinates around the player's chunk (`CHUNK_LOAD_RADIUS = 1`, outer
loop `dy`, inner `dx`), clipped to `[0, map_width_chunks) x
[0, map_height_chunks)`. -/
def get_chunks_for_position (cs : ChunkSystem) (worldX worldY : ℚ) :
    List (ℤ × ℤ) :=
  let c := world_to_chunk worldX worldY 32
  (List.range 3).flatMap (fun dy =>
    (List.range 3).filterMap (fun dx =>
      let cx := c.1 + (dx : ℤ) - 1
      let cy := c.2 + (dy : ℤ) - 1
      if 0 ≤ cx ∧ 0 ≤ cy ∧ cx < (cs.mapWidthChunks : ℤ) ∧
          cy < (cs.mapHeightChunks : ℤ) then
        some (cx, cy)
      else none))

/-- `map/chunks.rs` `ChunkUpdate { to_load, to_unload }`.  The source collects
each `HashSet` difference into a `Vec` in unspecified iteration order; the
model keeps them as the sets themselves. -/
structure ChunkUpdate where
  toLoad : Finset (ℤ × ℤ)
  toUnload : Finset (ℤ × ℤ)
  deriving DecidableEq

/-- `map/chunks.rs` `calculate_chunk_update`:
`to_load = needed - current`, `to_unload = current - needed`. -/
def calculate_chunk_update (currentChunks neededChunks : Finset (ℤ × ℤ)) :
    ChunkUpdate :=
  { toLoad := neededChunks \ currentChunks
    toUnload := currentChunks \ neededChunks }

/-- `state.rs` `PlayerInput`. -/
structure PlayerInput where
  sequence : ℕ
  timestamp : ℕ
  movementX : ℚ
  movementY : ℚ
  action : ℕ
  deriving DecidableEq, Repr

/-- `state.rs` `PlayerState`: entity handle, latest pending input, loaded
chunk set. -/
structure PlayerState where
  entity : EId
  latestInput : PlayerInput
  loadedChunks : Finset (ℤ × ℤ)
  deriving DecidableEq

/-- Replace a player's loaded-chunk set (`player_state.loaded_chunks = needed_set`). -/
def PlayerState.withChunks (ps : PlayerState) (n : Finset (ℤ × ℤ)) :
    PlayerState :=
  { ps with loadedChunks := n }

/-- Replace a player's pending input (`player_state.latest_input = input`). -/
def PlayerState.withInput (ps : PlayerState) (inp : PlayerInput) :
    PlayerState :=
  { ps with latestInput := inp }

/-- `state.rs` `GameState`, restricted to the fields the verified operations
touch: the world's `Position` column (despawning an entity removes its entry),
the player directory keyed by connection id, the delta tracker and the chunk
system.  `tick_count`, `delta_sequence`, `map` and `next_spawn_index` are
untouched by `remove_player` / `update_player_input` / `update_player_chunks`
and are omitted. -/
structure GameState where
  world : List (EId × Position)
  players : List (ℕ × PlayerState)
  deltaTracker : DeltaTracker
  chunkSystem : ChunkSystem

/-- `GameState::remove_player`: `players.remove(&connection_id)`; when an
entry exists, mark its entity despawned in the tracker and
`world.despawn(entity)`; otherwise do nothing. -/
def remove_player (s : GameState) (connectionId : ℕ) : GameState :=
  match lookupA s.players connectionId with
  | none => s
  | some ps =>
      { s with
          players := s.players.filter (fun p => decide (p.1 ≠ connectionId))
          deltaTracker := s.deltaTracker.mark_despawned ps.entity
          world := s.world.filter (fun p => decide (p.1 ≠ ps.entity)) }

/-- `GameState::update_player_input`: overwrite the pending input of a known
connection id; unknown ids are a no-op. -/
def update_player_input (s : GameState) (connectionId : ℕ)
    (input : PlayerInput) : GameState :=
  match lookupA s.players connectionId with
  | none => s
  | some _ =>
      { s with players := s.players.map (fun p =>
          if p.1 = connectionId then (p.1, p.2.withInput input) else p) }

/-- `GameState::update_player_chunks`: unknown connection id or a player
entity without a `Position` yield `ChunkUpdate::default()` and leave the state
alone; otherwise compute the needed set from the player's position, diff it
against the loaded set and replace the loaded set by the needed set. -/
def update_player_chunks (s : GameState) (connectionId : ℕ) :
    ChunkUpdate × GameState :=
  match lookupA s.players connectionId with
  | none => (⟨∅, ∅⟩, s)
  | some ps =>
      match lookupA s.world ps.entity with
      | none => (⟨∅, ∅⟩, s)
      | some pos =>
          let neededSet : Finset (ℤ × ℤ) :=
            (get_chunks_for_position s.chunkSystem pos.x pos.y).toFinset
          (calculate_chunk_update ps.loadedChunks neededSet,
           { s with players := s.players.map (fun p =>
               if p.1 = connectionId then (p.1, p.2.withChunks neededSet)
               else p) })

/-- `loop.rs` `GameLoop::update_movement`, per entity with `Position` and
`Velocity`: `p += v * TICK_DURATION_SEC` (`TICK_DURATION_SEC = 1.0/60.0`,
modelled as the exact rational `1/60`), then `clamp(MAP_MIN, MAP_MAX)` with
the hard constants `MAP_MIN = 0.0` and `MAP_MAX = 3200.0` ("100 tiles * 32
pixels"; the source comment reads "Simple boundary checking (TODO: use actual
map bounds)"). -/
def update_movement_step (p : Position) (v : Velocity) : Position :=
  { x := min (max (p.x + v.dx * (1 / 60)) 0) 3200
    y := min (max (p.y + v.dy * (1 / 60)) 0) 3200 }

/-- `loop.rs` `MOVEMENT_SPEED: f32 = 200.0`. -/
def MOVEMENT_SPEED : ℝ := 200

/-- `loop.rs` `GameLoop::process_player_inputs`, per player with a `Velocity`
component: `input_length = sqrt(mx*mx + my*my)`; if it is `> 0.0` the velocity
becomes the normalized input times `MOVEMENT_SPEED`, else `(0, 0)`.  The
square root forces this single definition over `ℝ`. -/
noncomputable def process_input_velocity (mx my : ℝ) : ℝ × ℝ :=
  let inputLength := Real.sqrt (mx * mx + my * my)
  if inputLength > 0 then
    (mx / inputLength * MOVEMENT_SPEED, my / inputLength * MOVEMENT_SPEED)
  else (0, 0)

/-- `ecs/components.rs` `AIState`. -/
inductive AIState where
  | idle
  | patrol
  | chase
  | attack
  | flee
  | dead
  deriving DecidableEq, Repr

/-- A spawned monster as far as `SpawnPointManager::update` observes it:
its `Position` (set from the spawn record's origin) and its `AIController`
state (`AIController::default()` starts `Idle`).  The remaining components
built by `spawn_monster` do not feed back into the manager. -/
structure MonsterEnt where
  x : ℚ
  y : ℚ
  ai : AIState
  deriving DecidableEq, Repr

/-- The hecs world as the spawn manager sees it, with a fresh-entity counter
(hecs handles are generational, never reused while the tracker can observe
them). -/
structure MonsterWorld where
  nextId : EId
  ents : List (EId × MonsterEnt)
  deriving DecidableEq, Repr

/-- `spawning.rs` `spawn_monster`: builds a monster entity at `(x, y)` whose
`AIController` defaults to `Idle`, and returns the fresh handle. -/
def spawn_monster (w : MonsterWorld) (x y : ℚ) : MonsterWorld × EId :=
  ({ nextId := w.nextId + 1
     ents := (w.nextId, { x := x, y := y, ai := AIState.idle }) :: w.ents },
   w.nextId)

/-- External world mutation (the combat/death systems): set an entity's
`AIController` state.  Used to build concrete traces. -/
def setAIState (w : MonsterWorld) (e : EId) (st : AIState) : MonsterWorld :=
  { w with ents := w.ents.map (fun p =>
      if p.1 = e then (p.1, { p.2 with ai := st }) else p) }

/-- `spawning.rs` `SpawnPointData` (`monster_type` kept as an opaque tag). -/
structure SpawnPointData where
  id : ℕ
  monsterType : ℕ
  x : ℚ
  y : ℚ
  isBoss : Bool
  respawnCooldownSeconds : ℕ
  lastSpawnTime : Option ℕ
  spawnedEntity : Option EId
  deriving DecidableEq, Repr

/-- `spawning.rs` `SpawnPointManager`. -/
structure SpawnPointManager where
  spawn_points : List SpawnPointData
  deriving DecidableEq, Repr

/-- `SpawnPointManager::new`. -/
def SpawnPointManager.new : SpawnPointManager := { spawn_points := [] }

/-- `spawning.rs` `REGULAR_RESPAWN_SECONDS = 300`. -/
def REGULAR_RESPAWN_SECONDS : ℕ := 300

/-- `spawning.rs` `BOSS_RESPAWN_HOURS = 24`. -/
def BOSS_RESPAWN_HOURS : ℕ := 24

/-- `SpawnPointManager::add_spawn_point`: id is the current length, cooldown
is `BOSS_RESPAWN_HOURS * 3600` for bosses and `REGULAR_RESPAWN_SECONDS`
otherwise; the record starts never-spawned.  Returns the manager and the id. -/
def add_spawn_point (m : SpawnPointManager) (monsterType : ℕ) (x y : ℚ)
    (isBoss : Bool) : SpawnPointManager × ℕ :=
  let id := m.spawn_points.length
  let cooldown :=
    if isBoss then BOSS_RESPAWN_HOURS * 3600 else REGULAR_RESPAWN_SECONDS
  ({ spawn_points := m.spawn_points ++
      [{ id := id, monsterType := monsterType, x := x, y := y
         isBoss := isBoss, respawnCooldownSeconds := cooldown
         lastSpawnTime := none, spawnedEntity := none }] },
   id)

/-- The loop body of `SpawnPointManager::update` for one record: skip while
the recorded entity exists with a non-`Dead` `AIController` (clearing the
handle when the entity no longer exists); otherwise spawn if the record never
spawned or `now - last_spawn_time >= respawn_cooldown_seconds`, placing the
new monster at the record's origin and stamping `last_spawn_time = now`.
`now` is the `Instant::now()` of the update, in whole seconds
(`duration_since(..).as_secs()`). -/
def update_spawn_record (w : MonsterWorld) (sp : SpawnPointData) (now : ℕ) :
    MonsterWorld × SpawnPointData :=
  let aliveCheck : Bool × SpawnPointData :=
    match sp.spawnedEntity with
    | some e =>
        match lookupA w.ents e with
        | some ent =>
            if ent.ai ≠ AIState.dead then (true, sp) else (false, sp)
        | none => (false, { sp with spawnedEntity := none })
    | none => (false, sp)
  if aliveCheck.1 then (w, aliveCheck.2)
  else
    let sp := aliveCheck.2
    let shouldSpawn : Bool :=
      match sp.lastSpawnTime with
      | some lastSpawn => decide (now - lastSpawn ≥ sp.respawnCooldownSeconds)
      | none => true
    if shouldSpawn then
      let res := spawn_monster w sp.x sp.y
      (res.1, { sp with spawnedEntity := some res.2, lastSpawnTime := some now })
    else (w, sp)

/-- `SpawnPointManager::update`: fold the per-record step over the records in
order, threading the world. -/
def SpawnPointManager.update (m : SpawnPointManager) (w : MonsterWorld)
    (now : ℕ) : MonsterWorld × SpawnPointManager :=
  let res := m.spawn_points.foldl
    (fun acc sp =>
      let step := update_spawn_record acc.1 sp now
      (step.1, acc.2 ++ [step.2]))
    (w, ([] : List SpawnPointData))
  (res.1, { spawn_points := res.2 })

/-- `ecs/components.rs` `CharacterClass`. -/
inductive CharacterClass where
  | fighter
  | rogue
  | cleric
  | wizard
  | ranger
  | barbarian
  deriving DecidableEq, Repr

/-- `character.rs` `ClassAbility`. -/
inductive ClassAbility where
  | secondWind
  | sneakAttack
  | healingWord
  | magicMissile
  | huntersMark
  | rage
  deriving DecidableEq, Repr

/-- `character.rs` `ClassAbility::cooldown_ms`. -/
def ClassAbility.cooldown_ms : ClassAbility → ℕ
  | .secondWind => 60000
  | .sneakAttack => 10000
  | .healingWord => 30000
  | .magicMissile => 15000
  | .huntersMark => 45000
  | .rage => 60000

/-- `character.rs` `ClassAbility::name`. -/
def ClassAbility.name : ClassAbility → String
  | .secondWind => "Second Wind"
  | .sneakAttack => "Sneak Attack"
  | .healingWord => "Healing Word"
  | .magicMissile => "Magic Missile"
  | .huntersMark => "Hunter\x27s Mark"
  | .rage => "Rage"

/-- `ecs/components.rs` `Health { current, max : i32 }`. -/
structure Health where
  current : ℤ
  max : ℤ
  deriving DecidableEq, Repr

/-- `ecs/components.rs` `Stats` (six `i32` ability scores). -/
structure Stats where
  str : ℤ
  dex : ℤ
  con : ℤ
  int : ℤ
  wis : ℤ
  cha : ℤ
  deriving DecidableEq, Repr

/-- `ecs/components.rs` `Cooldowns { attack, ability : Option<Instant> }`,
instants modelled as millisecond timestamps. -/
structure Cooldowns where
  attack : Option ℕ
  ability : Option ℕ
  deriving DecidableEq, Repr

/-- `abilities.rs` `is_ability_on_cooldown`: with a recorded last use,
`elapsed_ms < cooldown_ms` where `elapsed_ms = last_used.elapsed()` is
`now - last_used`; with no recorded use, `false`. -/
def is_ability_on_cooldown (now : ℕ) (cooldowns : Cooldowns)
    (ability : ClassAbility) : Bool :=
  match cooldowns.ability with
  | some lastUsed => decide (now - lastUsed < ability.cooldown_ms)
  | none => false

/-- Round-to-nearest integer, ties to even: the rounding applied to a binary
significand by IEEE-754 arithmetic. -/
def roundHalfEven (x : ℚ) : ℤ :=
  let f := ⌊x⌋
  let r := x - (f : ℚ)
  if r < 1 / 2 then f
  else if 1 / 2 < r then f + 1
  else if 2 ∣ f then f else f + 1

/-- Round a nonnegative rational to the nearest `f32` value (24-bit
significand, round-to-nearest-even); exact model for the normal range, which
covers every value these computations produce (subnormals and overflow do not
occur for game HP values). -/
def f32round (x : ℚ) : ℚ :=
  if x ≤ 0 then 0
  else
    let e : ℤ := Int.log 2 x
    (roundHalfEven (x / 2 ^ (e - 23)) : ℚ) * 2 ^ (e - 23)

/-- Rust `as i32` on a nonnegative `f32`: truncation toward zero. -/
def ratTruncToInt (x : ℚ) : ℤ :=
  if 0 ≤ x then ⌊x⌋ else ⌈x⌉

/-- The `f32` value of the literal `0.25` (exact). -/
def F32_QUARTER : ℚ := 1 / 4

/-- The `f32` value of the literal `0.30`: `5033165 / 2^24`. -/
def F32_THIRTY_PERCENT : ℚ := 5033165 / 16777216

/-- `abilities.rs` heal-amount computation `(health_max as f32 * c) as i32`
for a nonnegative `i32` `health_max`: convert to `f32` (exact up to `2^24`,
rounded beyond), one rounded `f32` multiplication by the constant, truncate. -/
def heal_amount (c : ℚ) (healthMax : ℤ) : ℤ :=
  ratTruncToInt (f32round (f32round (healthMax : ℚ) * c))

/-- An entity as `activate_ability` queries it: the four required components
`(Character, Cooldowns, Health, Stats)` (of `Character` only `class` is read). -/
structure AbilityEnt where
  cls : CharacterClass
  cooldowns : Cooldowns
  health : Health
  stats : Stats
  deriving DecidableEq, Repr

/-- The world as the ability system touches it. -/
abbrev AbilityWorld := List (EId × AbilityEnt)

/-- Overwrite one entity's record in place. -/
def updateEnt (w : AbilityWorld) (e : EId) (f : AbilityEnt → AbilityEnt) :
    AbilityWorld :=
  w.map (fun p => if p.1 = e then (p.1, f p.2) else p)

/-- The heal effect of `SecondWind` / `HealingWord` on the entity itself:
`health.current = (health.current + heal_amount).min(health.max)` where
`heal_amount = (health_max as f32 * c) as i32`. -/
def applyHeal (c : ℚ) (e0 : AbilityEnt) : AbilityEnt :=
  { e0 with health :=
      { current := min (e0.health.current + heal_amount c e0.health.max)
          e0.health.max
        max := e0.health.max } }

/-- `cooldowns.ability = Some(Instant::now())` at the end of a successful
activation. -/
def stampAbilityCooldown (now : ℕ) (e0 : AbilityEnt) : AbilityEnt :=
  { e0 with cooldowns := { e0.cooldowns with ability := some now } }

/-- `abilities.rs` `activate_ability`: query `(Character, Cooldowns, Health,
Stats)` (missing components error out with no mutation); return the
"is on cooldown" error with no mutation when `is_ability_on_cooldown`; else
apply the ability effect (`SecondWind` heals self 25% of own max HP,
`HealingWord` heals self 30% of own max HP — the source note reads "For now,
heal self" — both capped with `.min(health.max)`; the remaining four
abilities only log) and finally stamp `cooldowns.ability = Some(now)`.
Returned alongside the result is the (possibly mutated) world. -/
def activate_ability (w : AbilityWorld) (entity : EId)
    (ability : ClassAbility) (now : ℕ) : Except String Unit × AbilityWorld :=
  match lookupA w entity with
  | none => (Except.error "Entity missing required components", w)
  | some ent =>
      if is_ability_on_cooldown now ent.cooldowns ability then
        (Except.error (ability.name ++ " is on cooldown"), w)
      else
        let applyEffect : AbilityEnt → AbilityEnt := fun e0 =>
          match ability with
          | .secondWind => applyHeal F32_QUARTER e0
          | .healingWord => applyHeal F32_THIRTY_PERCENT e0
          | _ => e0
        (Except.ok (),
         updateEnt w entity (fun e0 => stampAbilityCooldown now (applyEffect e0)))

/-- `character.rs` `progression::xp_for_level` on `u32`: `0` for levels `<= 1`,
else `300 * 3^(level-2)` in `u32` arithmetic, i.e. modulo `2^32` (release-mode
wrapping; debug mode would panic at the same inputs). -/
def xp_for_level (level : ℕ) : ℕ :=
  if level ≤ 1 then 0 else 300 * 3 ^ (level - 2) % 2 ^ 32

/-- A concrete pending input, used in the concrete witness states. -/
def sampleInput : PlayerInput :=
  { sequence := 0, timestamp := 0, movementX := 0, movementY := 0, action := 0 }

/-- A concrete player-directory entry (entity handle 7, nothing loaded). -/
def samplePlayer : PlayerState :=
  { entity := 7, latestInput := sampleInput, loadedChunks := ∅ }

/-- A concrete game state: one player (connection id 1, entity 7) standing at
(100, 100) on a 4x4-chunk map. -/
def sampleState : GameState :=
  { world := [(7, { x := 100, y := 100 })]
    players := [(1, samplePlayer)]
    deltaTracker := DeltaTracker.new
    chunkSystem := { mapWidthChunks := 4, mapHeightChunks := 4 } }

/-- Invariant of the delta tracker: no entity awaiting its spawn announcement
has an entry in the position snapshot. -/
def trackerInv (t : DeltaTracker) : Prop :=
  ∀ e ∈ t.newlySpawned, lookupA t.lastPositions e = none

theorem lookupA_eq_none_iff {α : Type} (l : List (Nat × α)) (k : Nat) :
    lookupA l k = none ↔ ∀ p ∈ l, p.1 ≠ k := by
  induction l with
  | nil => simp [lookupA]
  | cons p l ih =>
      by_cases h : p.1 = k
      · simp [lookupA, h]
      · simp [lookupA, h, ih]

theorem lookupA_filter_ne_key {α : Type} (l : List (Nat × α)) (k j : Nat)
    (h : j ≠ k) :
    lookupA (l.filter (fun p => decide (p.1 ≠ k))) j = lookupA l j := by
  induction l with
  | nil => rfl
  | cons p l ih =>
      by_cases hp : p.1 = k
      · have hfilter : (p :: l).filter (fun q => decide (q.1 ≠ k)) =
            l.filter (fun q => decide (q.1 ≠ k)) := by
          simp [List.filter_cons, hp]
        have hpj : ¬ p.1 = j := by
          rw [hp]; exact fun hc => h hc.symm
        rw [hfilter, ih, lookupA, if_neg hpj]
      · have hfilter : (p :: l).filter (fun q => decide (q.1 ≠ k)) =
            p :: l.filter (fun q => decide (q.1 ≠ k)) := by
          simp [List.filter_cons, hp]
        rw [hfilter]
        by_cases hpj : p.1 = j
        · rw [lookupA, lookupA, if_pos hpj, if_pos hpj]
        · rw [lookupA, lookupA, if_neg hpj, if_neg hpj, ih]

theorem lookupA_filter_self {α : Type} (l : List (Nat × α)) (k : Nat) :
    lookupA (l.filter (fun p => decide (p.1 ≠ k))) k = none := by
  rw [lookupA_eq_none_iff]
  intro p hp
  have := List.of_mem_filter hp
  simpa using this

theorem lookupA_map_update {α : Type} (l : List (Nat × α)) (k j : Nat)
    (f : α → α) :
    lookupA (l.map (fun p => if p.1 = k then (p.1, f p.2) else p)) j =
      if j = k then (lookupA l j).map f else lookupA l j := by
  induction l with
  | nil => cases h : decide (j = k) <;> simp [lookupA]
  | cons p l ih =>
      by_cases hp : p.1 = k
      · by_cases hj : j = k
        · have hpj : p.1 = j := hp.trans hj.symm
          simp [lookupA, hp, hj, hpj]
        · have hpj : ¬ p.1 = j := fun hc => hj (hc ▸ hp : j = k)
          have hkj : ¬ k = j := fun hc => hj hc.symm
          simp [lookupA, hp, hj, hpj, hkj, ih]
      · by_cases hpj : p.1 = j
        · have hj : ¬ j = k := fun hc => hp (hpj.symm ▸ hc : p.1 = k)
          simp [lookupA, hp, hpj, hj]
        · simp [lookupA, hp, hpj, ih]

theorem is_in_range_iff (w : SyncWorld) (pp : Position) (e : EId) :
    is_in_range w pp e = true ↔
      ∃ pos, lookupA w e = some pos ∧
        (pos.x - pp.x) ^ 2 + (pos.y - pp.y) ^ 2 ≤ VISION_RANGE_PIXELS ^ 2 := by
  unfold is_in_range
  cases h : lookupA w e with
  | none => simp
  | some pos => simp [h]

/-- C1: in a per-client delta filtering step, an entity of the updated or
spawned set is kept if and only if it is in the original set and carries a
`Position` whose (squared) Euclidean distance to the client's player position
is at most `VISION_RANGE_PIXELS = 640` pixels (entities without a `Position`
are dropped), while the despawned list is passed through unfiltered. -/
theorem filter_changes_by_vision_spec (w : SyncWorld) (ch : EntityChanges)
    (pp : Position) :
    (∀ e, e ∈ (filter_changes_by_vision w ch pp).updated ↔
        e ∈ ch.updated ∧ ∃ pos, lookupA w e = some pos ∧
          (pos.x - pp.x) ^ 2 + (pos.y - pp.y) ^ 2 ≤ VISION_RANGE_PIXELS ^ 2) ∧
    (∀ e, e ∈ (filter_changes_by_vision w ch pp).spawned ↔
        e ∈ ch.spawned ∧ ∃ pos, lookupA w e = some pos ∧
          (pos.x - pp.x) ^ 2 + (pos.y - pp.y) ^ 2 ≤ VISION_RANGE_PIXELS ^ 2) ∧
    (filter_changes_by_vision w ch pp).despawned = ch.despawned := by
  refine ⟨fun e => ?_, fun e => ?_, rfl⟩
  · rw [show (filter_changes_by_vision w ch pp).updated =
      ch.updated.filter (fun e => is_in_range w pp e) from rfl]
    rw [List.mem_filter, is_in_range_iff]
  · rw [show (filter_changes_by_vision w ch pp).spawned =
      ch.spawned.filter (fun e => is_in_range w pp e) from rfl]
    rw [List.mem_filter, is_in_range_iff]

theorem trackerInv_new : trackerInv DeltaTracker.new := by
  intro e he
  simp [DeltaTracker.new] at he

theorem trackerInv_mark_spawned {t : DeltaTracker} (e : EId)
    (h : trackerInv t) (hfresh : lookupA t.lastPositions e = none) :
    trackerInv (t.mark_spawned e) := by
  intro e2 he2
  rw [DeltaTracker.mark_spawned] at he2
  by_cases hmem : e ∈ t.newlySpawned
  · rw [if_pos hmem] at he2
    exact h e2 he2
  · rw [if_neg hmem] at he2
    rcases List.mem_cons.mp he2 with h1 | h2
    · exact h1 ▸ hfresh
    · exact h e2 h2

theorem trackerInv_mark_despawned {t : DeltaTracker} (e : EId)
    (h : trackerInv t) : trackerInv (t.mark_despawned e) := by
  intro e2 he2
  have hnone : lookupA t.lastPositions e2 = none := h e2 he2
  rw [DeltaTracker.mark_despawned, lookupA_eq_none_iff]
  intro p hp
  exact (lookupA_eq_none_iff t.lastPositions e2).mp hnone p
    (List.mem_of_mem_filter hp)

theorem trackerInv_update (t : DeltaTracker) (w : SyncWorld) :
    trackerInv (t.update w).2 := by
  intro e2 he2
  simp [DeltaTracker.update] at he2

theorem trackerInv_of_reachable {t : DeltaTracker} (h : TrackerReachable t) :
    trackerInv t := by
  induction h with
  | base => exact trackerInv_new
  | stepSpawn e _ hfresh ih => exact trackerInv_mark_spawned e ih hfresh
  | stepDespawn e _ ih => exact trackerInv_mark_despawned e ih
  | stepUpdate w _ _ => exact trackerInv_update _ w

/-- C9: after any delta-tracker update in a reachable tracker state, the
produced change set has disjoint `updated` and `spawned`: an entity flagged as
moved (which requires a snapshot entry from the previous tick) is never also
announced as newly spawned. -/
theorem delta_update_disjoint_spec (t : DeltaTracker) (h : TrackerReachable t)
    (w : SyncWorld) (e : EId) :
    e ∈ (t.update w).1.updated → e ∉ (t.update w).1.spawned := by
  intro hupd hspawn
  have hinv := trackerInv_of_reachable h
  have hspawn2 : e ∈ t.newlySpawned := hspawn
  have hnone := hinv e hspawn2
  have : ∃ p : EId × Position, p ∈ w ∧
      movedSinceSnapshot t.lastPositions p = true ∧ p.1 = e := by
    rcases List.mem_map.mp hupd with ⟨p, hp, hpe⟩
    exact ⟨p, (List.mem_filter.mp hp).1, (List.mem_filter.mp hp).2, hpe⟩
  rcases this with ⟨p, _, hmoved, hpe⟩
  rw [movedSinceSnapshot, hpe, hnone] at hmoved
  simp at hmoved

/-- Witness for C9 at a concrete reachable tracker: spawn entity 0, run one
update so it enters the snapshot, move it; the follow-up update flags it
updated and the theorem rules it out of the spawned set. -/
theorem delta_update_disjoint_spec_witness :
    0 ∉ ((((DeltaTracker.new.mark_spawned 0).update
        [(0, { x := 0, y := 0 })]).2.update
        [(0, { x := 5, y := 5 })]).1).spawned :=
  delta_update_disjoint_spec _
    (TrackerReachable.stepUpdate _
      (TrackerReachable.stepSpawn 0 TrackerReachable.base rfl))
    [(0, { x := 5, y := 5 })] 0 (by
      simp [DeltaTracker.update, DeltaTracker.mark_spawned, DeltaTracker.new,
        movedSinceSnapshot, lookupA]
      norm_num)


/-- C2: `calculate_chunk_update` emits exactly the set differences
`to_load = needed - loaded` and `to_unload = loaded - needed` (both empty when
the sets coincide), and `GameState::update_player_chunks` applies it between
the player's loaded set and the needed set computed from the player's
position, afterwards replacing the loaded set by the needed set; with
`needed = loaded` the emitted sets are empty and the loaded set is unchanged
(idempotence). -/
theorem chunk_update_spec :
    (∀ L N : Finset (ℤ × ℤ),
      (calculate_chunk_update L N).toLoad = N \ L ∧
      (calculate_chunk_update L N).toUnload = L \ N ∧
      (N = L → calculate_chunk_update L N = ⟨∅, ∅⟩)) ∧
    (∀ (s : GameState) (cid : ℕ) (ps : PlayerState) (pos : Position),
      lookupA s.players cid = some ps →
      lookupA s.world ps.entity = some pos →
      (update_player_chunks s cid).1 =
        calculate_chunk_update ps.loadedChunks
          (get_chunks_for_position s.chunkSystem pos.x pos.y).toFinset ∧
      lookupA (update_player_chunks s cid).2.players cid =
        some (ps.withChunks
          (get_chunks_for_position s.chunkSystem pos.x pos.y).toFinset) ∧
      ((get_chunks_for_position s.chunkSystem pos.x pos.y).toFinset =
          ps.loadedChunks →
        (update_player_chunks s cid).1 = ⟨∅, ∅⟩ ∧
        lookupA (update_player_chunks s cid).2.players cid = some ps)) := by
  constructor
  · intro L N
    refine ⟨rfl, rfl, fun hNL => ?_⟩
    subst hNL
    show ChunkUpdate.mk (N \ N) (N \ N) = ChunkUpdate.mk ∅ ∅
    rw [Finset.sdiff_self]
  · intro s cid ps pos h1 h2
    have hred : update_player_chunks s cid =
        (calculate_chunk_update ps.loadedChunks
          (get_chunks_for_position s.chunkSystem pos.x pos.y).toFinset,
         { s with players := s.players.map (fun p =>
             if p.1 = cid then
               (p.1, p.2.withChunks
                 (get_chunks_for_position s.chunkSystem pos.x pos.y).toFinset)
             else p) }) := by
      simp only [update_player_chunks, h1, h2]
    have hplayers : (update_player_chunks s cid).2.players =
        s.players.map (fun p =>
          if p.1 = cid then
            (p.1, p.2.withChunks
              (get_chunks_for_position s.chunkSystem pos.x pos.y).toFinset)
          else p) := by
      rw [hred]
    have hlook : lookupA (update_player_chunks s cid).2.players cid =
        some (ps.withChunks
          (get_chunks_for_position s.chunkSystem pos.x pos.y).toFinset) := by
      have hlm := lookupA_map_update s.players cid cid
        (fun q => q.withChunks
          (get_chunks_for_position s.chunkSystem pos.x pos.y).toFinset)
      simp only [eq_self_iff_true, if_true, h1, Option.map_some] at hlm
      rw [hplayers]
      exact hlm
    refine ⟨by rw [hred], hlook, fun hNL => ?_⟩
    constructor
    · rw [hred]
      show ChunkUpdate.mk _ _ = ChunkUpdate.mk ∅ ∅
      rw [hNL, Finset.sdiff_self]
    · rw [hlook, hNL]
      rfl

/-- Witness for C2 at the concrete `sampleState`. -/
theorem chunk_update_spec_witness :
    (update_player_chunks sampleState 1).1 =
      calculate_chunk_update samplePlayer.loadedChunks
        (get_chunks_for_position sampleState.chunkSystem 100 100).toFinset :=
  (chunk_update_spec.2 sampleState 1 samplePlayer { x := 100, y := 100 }
    rfl rfl).1

/-- C10: `remove_player` and `update_player_input` on a connection id absent
from the player directory are complete no-ops (state returned unchanged), and
`remove_player` on a known id removes exactly that directory entry and
despawns exactly that player's entity (marking it in the delta tracker). -/
theorem player_directory_spec (s : GameState) (cid : ℕ) (inp : PlayerInput) :
    (lookupA s.players cid = none →
      remove_player s cid = s ∧ update_player_input s cid inp = s) ∧
    (∀ ps, lookupA s.players cid = some ps →
      (remove_player s cid).world =
        s.world.filter (fun p => decide (p.1 ≠ ps.entity)) ∧
      (remove_player s cid).deltaTracker =
        s.deltaTracker.mark_despawned ps.entity ∧
      (remove_player s cid).chunkSystem = s.chunkSystem ∧
      lookupA (remove_player s cid).players cid = none ∧
      (∀ c2, c2 ≠ cid → lookupA (remove_player s cid).players c2 =
        lookupA s.players c2) ∧
      lookupA (remove_player s cid).world ps.entity = none ∧
      (∀ e2, e2 ≠ ps.entity → lookupA (remove_player s cid).world e2 =
        lookupA s.world e2)) := by
  constructor
  · intro h
    constructor
    · rw [remove_player, h]
    · rw [update_player_input, h]
  · intro ps h
    have hred : remove_player s cid =
        { s with
            players := s.players.filter (fun p => decide (p.1 ≠ cid))
            deltaTracker := s.deltaTracker.mark_despawned ps.entity
            world := s.world.filter (fun p => decide (p.1 ≠ ps.entity)) } := by
      simp only [remove_player, h]
    refine ⟨by rw [hred], by rw [hred], by rw [hred], ?_, ?_, ?_, ?_⟩
    · rw [hred]
      exact lookupA_filter_self s.players cid
    · intro c2 hc2
      rw [hred]
      exact lookupA_filter_ne_key s.players cid c2 hc2
    · rw [hred]
      exact lookupA_filter_self s.world ps.entity
    · intro e2 he2
      rw [hred]
      exact lookupA_filter_ne_key s.world ps.entity e2 he2

/-- Witness for C10 at the concrete `sampleState`: connection 2 is unknown
(both operations are no-ops), connection 1 is removed exactly. -/
theorem player_directory_spec_witness :
    (remove_player sampleState 2 = sampleState ∧
      update_player_input sampleState 2 sampleInput = sampleState) ∧
    lookupA (remove_player sampleState 1).players 1 = none ∧
    lookupA (remove_player sampleState 1).world samplePlayer.entity = none :=
  ⟨(player_directory_spec sampleState 2 sampleInput).1 rfl,
   ((player_directory_spec sampleState 1 sampleInput).2 samplePlayer
      rfl).2.2.2.1,
   ((player_directory_spec sampleState 1 sampleInput).2 samplePlayer
      rfl).2.2.2.2.2.1⟩

theorem input_nonzero_sq_pos {mx my : ℝ} (h : ¬(mx = 0 ∧ my = 0)) :
    0 < mx * mx + my * my := by
  rcases not_and_or.mp h with h1 | h1
  · have hp : 0 < mx * mx := mul_self_pos.mpr h1
    nlinarith [mul_self_nonneg my]
  · have hp : 0 < my * my := mul_self_pos.mpr h1
    nlinarith [mul_self_nonneg mx]

theorem process_input_velocity_of_nonzero {mx my : ℝ}
    (h : ¬(mx = 0 ∧ my = 0)) :
    process_input_velocity mx my =
      (mx / Real.sqrt (mx * mx + my * my) * MOVEMENT_SPEED,
       my / Real.sqrt (mx * mx + my * my) * MOVEMENT_SPEED) ∧
    (process_input_velocity mx my).1 ^ 2 +
      (process_input_velocity mx my).2 ^ 2 = MOVEMENT_SPEED ^ 2 := by
  have hs : 0 < mx * mx + my * my := input_nonzero_sq_pos h
  have hlen : Real.sqrt (mx * mx + my * my) > 0 := Real.sqrt_pos.mpr hs
  have heq : process_input_velocity mx my =
      (mx / Real.sqrt (mx * mx + my * my) * MOVEMENT_SPEED,
       my / Real.sqrt (mx * mx + my * my) * MOVEMENT_SPEED) := by
    simp only [process_input_velocity]
    rw [if_pos hlen]
  refine ⟨heq, ?_⟩
  rw [heq]
  have hsq : Real.sqrt (mx * mx + my * my) ^ 2 = mx * mx + my * my :=
    Real.sq_sqrt hs.le
  have hexp : (mx / Real.sqrt (mx * mx + my * my) * MOVEMENT_SPEED) ^ 2 +
      (my / Real.sqrt (mx * mx + my * my) * MOVEMENT_SPEED) ^ 2 =
      (mx * mx + my * my) / Real.sqrt (mx * mx + my * my) ^ 2 *
        MOVEMENT_SPEED ^ 2 := by
    ring
  rw [hexp, hsq, div_self (ne_of_gt hs), one_mul]

/-- C3: `process_player_inputs` sets a player's velocity to `(0, 0)` on
zero-magnitude input and otherwise to the input normalized to unit length
times `MOVEMENT_SPEED = 200`, so the resulting speed is always 200; in
particular diagonal input (1, 1) produces the same speed as axis-aligned
input (1, 0). -/
theorem process_player_inputs_spec (mx my : ℝ) :
    (mx = 0 ∧ my = 0 → process_input_velocity mx my = (0, 0)) ∧
    (¬(mx = 0 ∧ my = 0) →
      process_input_velocity mx my =
        (mx / Real.sqrt (mx * mx + my * my) * MOVEMENT_SPEED,
         my / Real.sqrt (mx * mx + my * my) * MOVEMENT_SPEED) ∧
      (process_input_velocity mx my).1 ^ 2 +
        (process_input_velocity mx my).2 ^ 2 = MOVEMENT_SPEED ^ 2) ∧
    (process_input_velocity 1 1).1 ^ 2 + (process_input_velocity 1 1).2 ^ 2 =
      (process_input_velocity 1 0).1 ^ 2 + (process_input_velocity 1 0).2 ^ 2 := by
  refine ⟨?_, process_input_velocity_of_nonzero, ?_⟩
  · rintro ⟨rfl, rfl⟩
    simp only [process_input_velocity]
    rw [if_neg]
    norm_num
  · have h11 := (@process_input_velocity_of_nonzero 1 1 (by norm_num)).2
    have h10 := (@process_input_velocity_of_nonzero 1 0 (by norm_num)).2
    rw [h11, h10]

/-- Witness for C3 at input (3, 4): nonzero input yields the normalized
velocity with squared speed 200^2. -/
theorem process_player_inputs_spec_witness :
    process_input_velocity 3 4 =
      ((3 : ℝ) / Real.sqrt (3 * 3 + 4 * 4) * MOVEMENT_SPEED,
       (4 : ℝ) / Real.sqrt (3 * 3 + 4 * 4) * MOVEMENT_SPEED) ∧
    (process_input_velocity 3 4).1 ^ 2 + (process_input_velocity 3 4).2 ^ 2 =
      MOVEMENT_SPEED ^ 2 :=
  (process_player_inputs_spec 3 4).2.1 (by norm_num)

/-- C4 (code-bug evidence): the motion integrator clamps every position to
the hard-coded constant square `[0, 3200]^2` ("100 tiles * 32 pixels", marked
`TODO: use actual map bounds` in the source), not to the loaded map's
`[0, W*T] x [0, H*T]`: with the default 128x128-tile map (`W*T = 4096`) an
entity resting at x = 3300 — legal under the claim — is dragged to 3200 by a
zero-velocity integration step. -/
theorem update_movement_constant_bound :
    update_movement_step { x := 3300, y := 100 } { dx := 0, dy := 0 } =
      { x := 3200, y := 100 } ∧
    (3300 : ℚ) ≤ 128 * 32 ∧
    ∀ (p : Position) (v : Velocity),
      0 ≤ (update_movement_step p v).x ∧ (update_movement_step p v).x ≤ 3200 ∧
      0 ≤ (update_movement_step p v).y ∧ (update_movement_step p v).y ≤ 3200 := by
  refine ⟨?_, by norm_num, ?_⟩
  · rw [update_movement_step]
    have hx : min (max ((3300 : ℚ) + 0 * (1 / 60)) 0) 3200 = 3200 := by
      norm_num [min_def, max_def]
    have hy : min (max ((100 : ℚ) + 0 * (1 / 60)) 0) 3200 = 100 := by
      norm_num [min_def, max_def]
    rw [hx, hy]
  · intro p v
    refine ⟨le_min (le_max_right _ _) (by norm_num), min_le_right _ _,
      le_min (le_max_right _ _) (by norm_num), min_le_right _ _⟩

/-- C5 (amended): `add_spawn_point` assigns cooldown 300 s to a regular
record and 86 400 s to a boss record; `SpawnPointManager::update` skips a
record whose monster is alive, and once the monster is dead it creates a new
monster only when `now - last_spawn_time >= cooldown` — the cooldown runs
from the record's last *spawn* time, not from the death — placing the new
monster at the record's origin `(x, y)` regardless of where the previous one
died, with `last_spawn_time` restamped to `now`. -/
theorem spawn_record_spec :
    (∀ (m : SpawnPointManager) (mt : ℕ) (x y : ℚ) (b : Bool),
      (add_spawn_point m mt x y b).1.spawn_points.getLast? =
        some { id := m.spawn_points.length, monsterType := mt, x := x, y := y
               isBoss := b
               respawnCooldownSeconds := if b then 86400 else 300
               lastSpawnTime := none, spawnedEntity := none }) ∧
    (∀ (w : MonsterWorld) (sp : SpawnPointData) (now : ℕ) (e : EId)
        (ent : MonsterEnt),
      sp.spawnedEntity = some e → lookupA w.ents e = some ent →
      ent.ai ≠ AIState.dead →
      update_spawn_record w sp now = (w, sp)) ∧
    (∀ (w : MonsterWorld) (sp : SpawnPointData) (now : ℕ) (e : EId)
        (ent : MonsterEnt) (t : ℕ),
      sp.spawnedEntity = some e → lookupA w.ents e = some ent →
      ent.ai = AIState.dead → sp.lastSpawnTime = some t →
      now - t < sp.respawnCooldownSeconds →
      update_spawn_record w sp now = (w, sp)) ∧
    (∀ (w : MonsterWorld) (sp : SpawnPointData) (now : ℕ) (e : EId)
        (ent : MonsterEnt) (t : ℕ),
      sp.spawnedEntity = some e → lookupA w.ents e = some ent →
      ent.ai = AIState.dead → sp.lastSpawnTime = some t →
      now - t ≥ sp.respawnCooldownSeconds →
      update_spawn_record w sp now =
        ({ nextId := w.nextId + 1
           ents := (w.nextId, { x := sp.x, y := sp.y, ai := AIState.idle }) ::
             w.ents },
         { sp with spawnedEntity := some w.nextId
                   lastSpawnTime := some now })) := by
  refine ⟨?_, ?_, ?_, ?_⟩
  · intro m mt x y b
    rw [add_spawn_point]
    rw [List.getLast?_concat]
    cases b <;> simp [REGULAR_RESPAWN_SECONDS, BOSS_RESPAWN_HOURS]
  · intro w sp now e ent hsp hlook hne
    simp [update_spawn_record, hsp, hlook, hne]
  · intro w sp now e ent t hsp hlook hdead hlast hlt
    simp [update_spawn_record, hsp, hlook, hdead, hlast, Nat.not_le.mpr hlt]
  · intro w sp now e ent t hsp hlook hdead hlast hge
    simp [update_spawn_record, hsp, hlook, hdead, hlast, hge, spawn_monster]

/-- Witness for C5's amended theorem: a concrete dead monster (entity 0) with
cooldown 300 whose record last spawned at t = 0 is respawned at the origin
(100, 100) at `now = 400`. -/
theorem spawn_record_spec_witness :
    update_spawn_record
        { nextId := 1, ents := [(0, { x := 100, y := 100, ai := AIState.dead })] }
        { id := 0, monsterType := 0, x := 100, y := 100, isBoss := false
          respawnCooldownSeconds := 300, lastSpawnTime := some 0
          spawnedEntity := some 0 }
        400 =
      ({ nextId := 2
         ents := [(1, { x := 100, y := 100, ai := AIState.idle }),
                  (0, { x := 100, y := 100, ai := AIState.dead })] },
       { id := 0, monsterType := 0, x := 100, y := 100, isBoss := false
         respawnCooldownSeconds := 300, lastSpawnTime := some 400
         spawnedEntity := some 1 }) :=
  spawn_record_spec.2.2.2
    { nextId := 1, ents := [(0, { x := 100, y := 100, ai := AIState.dead })] }
    { id := 0, monsterType := 0, x := 100, y := 100, isBoss := false
      respawnCooldownSeconds := 300, lastSpawnTime := some 0
      spawnedEntity := some 0 }
    400 0 { x := 100, y := 100, ai := AIState.dead } 0 rfl rfl rfl rfl
    (by norm_num)

/-- Counterexample to C5 as stated: the respawn gate measures from the last
*spawn* time, not from the death.  Trace: a regular spawn point (cooldown
300 s) spawns entity 0 at t = 0; at t = 350 the monster is still alive and
the update changes nothing; the monster then dies (strictly after t = 350),
and at t = 400 — at most 50 s after the death, far less than the 300 s the
claim requires — the update already creates a fresh monster (entity 1). -/
theorem spawn_respawn_after_death_cex :
    SpawnPointManager.update
        (add_spawn_point SpawnPointManager.new 0 100 100 false).1
        { nextId := 0, ents := [] } 0 =
      ({ nextId := 1, ents := [(0, { x := 100, y := 100, ai := AIState.idle })] },
       { spawn_points := [{ id := 0, monsterType := 0, x := 100, y := 100
                            isBoss := false, respawnCooldownSeconds := 300
                            lastSpawnTime := some 0
                            spawnedEntity := some 0 }] }) ∧
    SpawnPointManager.update
        { spawn_points := [{ id := 0, monsterType := 0, x := 100, y := 100
                             isBoss := false, respawnCooldownSeconds := 300
                             lastSpawnTime := some 0
                             spawnedEntity := some 0 }] }
        { nextId := 1, ents := [(0, { x := 100, y := 100, ai := AIState.idle })] }
        350 =
      ({ nextId := 1, ents := [(0, { x := 100, y := 100, ai := AIState.idle })] },
       { spawn_points := [{ id := 0, monsterType := 0, x := 100, y := 100
                            isBoss := false, respawnCooldownSeconds := 300
                            lastSpawnTime := some 0
                            spawnedEntity := some 0 }] }) ∧
    (SpawnPointManager.update
        { spawn_points := [{ id := 0, monsterType := 0, x := 100, y := 100
                             isBoss := false, respawnCooldownSeconds := 300
                             lastSpawnTime := some 0
                             spawnedEntity := some 0 }] }
        (setAIState
          { nextId := 1
            ents := [(0, { x := 100, y := 100, ai := AIState.idle })] }
          0 AIState.dead)
        400).2.spawn_points.head?.map (fun sp => sp.spawnedEntity) =
      some (some 1) ∧
    400 - 350 < 300 := by
  refine ⟨rfl, rfl, rfl, by norm_num⟩

/-- C6: with the entity's components present, a recorded last ability use and
`now - last < cooldown_ms`, `activate_ability` returns the "is on cooldown"
error and the world — every component of every entity — is returned
unchanged. -/
theorem activate_ability_on_cooldown_spec (w : AbilityWorld) (e : EId)
    (ab : ClassAbility) (now lastUsed : ℕ) (ent : AbilityEnt)
    (hent : lookupA w e = some ent)
    (hlast : ent.cooldowns.ability = some lastUsed)
    (hcd : now - lastUsed < ab.cooldown_ms) :
    activate_ability w e ab now =
      (Except.error (ab.name ++ " is on cooldown"), w) := by
  have hon : is_ability_on_cooldown now ent.cooldowns ab = true := by
    rw [is_ability_on_cooldown, hlast]
    exact decide_eq_true hcd
  simp [activate_ability, hent, hon]

/-- Witness for C6: a fighter who used Second Wind at t = 0 and retries at
t = 100 ms (cooldown 60 000 ms) gets the error and an unchanged world. -/
theorem activate_ability_on_cooldown_spec_witness :
    activate_ability
        [(0, { cls := CharacterClass.fighter
               cooldowns := { attack := none, ability := some 0 }
               health := { current := 5, max := 12 }
               stats := { str := 13, dex := 10, con := 12, int := 10
                          wis := 10, cha := 10 } })]
        0 ClassAbility.secondWind 100 =
      (Except.error (ClassAbility.secondWind.name ++ " is on cooldown"),
       [(0, { cls := CharacterClass.fighter
              cooldowns := { attack := none, ability := some 0 }
              health := { current := 5, max := 12 }
              stats := { str := 13, dex := 10, con := 12, int := 10
                         wis := 10, cha := 10 } })]) :=
  activate_ability_on_cooldown_spec _ 0 ClassAbility.secondWind 100 0 _
    rfl rfl (by norm_num [ClassAbility.cooldown_ms])

theorem lookupA_updateEnt (w : AbilityWorld) (k j : EId)
    (f : AbilityEnt → AbilityEnt) :
    lookupA (updateEnt w k f) j =
      if j = k then (lookupA w j).map f else lookupA w j :=
  lookupA_map_update w k j f

theorem intLog_eval {x : ℚ} {e : ℤ} (hx : 0 < x) (h1 : (2 : ℚ) ^ e ≤ x)
    (h2 : x < (2 : ℚ) ^ (e + 1)) : Int.log 2 x = e := by
  have hle : e ≤ Int.log 2 x :=
    (Int.zpow_le_iff_le_log (by norm_num) hx).mp (by exact_mod_cast h1)
  have hlt : Int.log 2 x < e + 1 :=
    (Int.lt_zpow_iff_log_lt (by norm_num) hx).mp (by exact_mod_cast h2)
  omega

theorem roundHalfEven_of_lt {x : ℚ} {f : ℤ} (hf : ⌊x⌋ = f)
    (hr : x - f < 1 / 2) : roundHalfEven x = f := by
  rw [roundHalfEven]
  simp only [hf]
  rw [if_pos hr]

theorem roundHalfEven_of_gt {x : ℚ} {f : ℤ} (hf : ⌊x⌋ = f)
    (hr : 1 / 2 < x - f) : roundHalfEven x = f + 1 := by
  rw [roundHalfEven]
  simp only [hf]
  rw [if_neg (by linarith), if_pos hr]

theorem f32round_eval {x : ℚ} {e m : ℤ} (hx : 0 < x)
    (h1 : (2 : ℚ) ^ e ≤ x) (h2 : x < (2 : ℚ) ^ (e + 1))
    (hm : roundHalfEven (x / 2 ^ (e - 23)) = m) :
    f32round x = (m : ℚ) * 2 ^ (e - 23) := by
  rw [f32round, if_neg (not_le.mpr hx)]
  show (roundHalfEven (x / 2 ^ (Int.log 2 x - 23)) : ℚ) *
      2 ^ (Int.log 2 x - 23) = (m : ℚ) * 2 ^ (e - 23)
  rw [intLog_eval hx h1 h2, hm]

theorem f32round_25 : f32round (25 : ℚ) = 25 := by
  have h := f32round_eval (x := (25 : ℚ)) (e := 4) (m := 13107200)
    (by norm_num) (by norm_num) (by norm_num) ?_
  · rw [h]
    norm_num [zpow_neg]
  · apply roundHalfEven_of_lt
    · rw [show ((25 : ℚ) / 2 ^ ((4 : ℤ) - 23)) = ((13107200 : ℤ) : ℚ) by
        norm_num [zpow_neg]]
      exact Int.floor_intCast _
    · rw [show ((25 : ℚ) / 2 ^ ((4 : ℤ) - 23)) = ((13107200 : ℤ) : ℚ) by
        norm_num [zpow_neg]]
      norm_num

theorem f32round_100 : f32round (100 : ℚ) = 100 := by
  have h := f32round_eval (x := (100 : ℚ)) (e := 6) (m := 13107200)
    (by norm_num) (by norm_num) (by norm_num) ?_
  · rw [h]
    norm_num [zpow_neg]
  · apply roundHalfEven_of_lt
    · rw [show ((100 : ℚ) / 2 ^ ((6 : ℤ) - 23)) = ((13107200 : ℤ) : ℚ) by
        norm_num [zpow_neg]]
      exact Int.floor_intCast _
    · rw [show ((100 : ℚ) / 2 ^ ((6 : ℤ) - 23)) = ((13107200 : ℤ) : ℚ) by
        norm_num [zpow_neg]]
      norm_num

/-- `100 * 0.25f32` truncated is exactly 25. -/
theorem heal_amount_quarter_100 : heal_amount F32_QUARTER 100 = 25 := by
  rw [heal_amount, show ((100 : ℤ) : ℚ) = 100 by norm_num, f32round_100]
  rw [show (100 : ℚ) * F32_QUARTER = 25 by norm_num [F32_QUARTER]]
  rw [f32round_25, ratTruncToInt, if_pos (by norm_num)]
  norm_num

/-- `100 * 0.30f32` rounds to `15728641 * 2^-19 = 30.0000019...` and
truncates to exactly 30. -/
theorem heal_amount_thirty_100 : heal_amount F32_THIRTY_PERCENT 100 = 30 := by
  rw [heal_amount, show ((100 : ℤ) : ℚ) = 100 by norm_num, f32round_100]
  have hprod : (100 : ℚ) * F32_THIRTY_PERCENT = 125829125 / 4194304 := by
    norm_num [F32_THIRTY_PERCENT]
  rw [hprod]
  have h := f32round_eval (x := ((125829125 : ℚ) / 4194304)) (e := 4)
    (m := 15728641) (by norm_num) (by norm_num) (by norm_num) ?_
  · rw [h, ratTruncToInt, if_pos (by norm_num [zpow_neg])]
    rw [show ((15728641 : ℤ) : ℚ) * 2 ^ ((4 : ℤ) - 23) =
      15728641 / 524288 by norm_num [zpow_neg]]
    rw [Int.floor_eq_iff]
    norm_num
  · have harg : ((125829125 : ℚ) / 4194304 / 2 ^ ((4 : ℤ) - 23)) =
        125829125 / 8 := by
      norm_num [zpow_neg]
    have hfl : ⌊((125829125 : ℚ) / 4194304 / 2 ^ ((4 : ℤ) - 23))⌋ =
        (15728640 : ℤ) := by
      rw [harg, Int.floor_eq_iff]
      norm_num
    have hgt : 1 / 2 < ((125829125 : ℚ) / 4194304 / 2 ^ ((4 : ℤ) - 23)) -
        ((15728640 : ℤ) : ℚ) := by
      rw [harg]
      norm_num
    exact (roundHalfEven_of_gt hfl hgt).trans (by norm_num)


/-- C7: activated off cooldown, `SecondWind` adds `(max_hp as f32 * 0.25) as
i32` and `HealingWord` adds `(max_hp as f32 * 0.30) as i32` to the current HP
of the entity the ability is activated on (the implementation's only target —
the source note reads "For now, heal self"), both capped by
`.min(health.max)` so current HP never ends above max; at `max_hp = 100` the
heal amounts are exactly 25 and 30 (25% and 30%). -/
theorem activate_ability_heal_spec (w : AbilityWorld) (e : EId) (now : ℕ)
    (ent : AbilityEnt) (hent : lookupA w e = some ent) :
    (is_ability_on_cooldown now ent.cooldowns ClassAbility.secondWind = false →
      activate_ability w e ClassAbility.secondWind now =
        (Except.ok (), updateEnt w e (fun e0 =>
          stampAbilityCooldown now (applyHeal F32_QUARTER e0))) ∧
      lookupA (activate_ability w e ClassAbility.secondWind now).2 e =
        some (stampAbilityCooldown now (applyHeal F32_QUARTER ent))) ∧
    (is_ability_on_cooldown now ent.cooldowns ClassAbility.healingWord = false →
      activate_ability w e ClassAbility.healingWord now =
        (Except.ok (), updateEnt w e (fun e0 =>
          stampAbilityCooldown now (applyHeal F32_THIRTY_PERCENT e0))) ∧
      lookupA (activate_ability w e ClassAbility.healingWord now).2 e =
        some (stampAbilityCooldown now (applyHeal F32_THIRTY_PERCENT ent))) ∧
    (∀ c : ℚ, ∀ e0 : AbilityEnt,
      (applyHeal c e0).health.current ≤ e0.health.max ∧
      (applyHeal c e0).health.max = e0.health.max) ∧
    heal_amount F32_QUARTER 100 = 25 ∧
    heal_amount F32_THIRTY_PERCENT 100 = 30 := by
  refine ⟨?_, ?_, fun c e0 => ⟨min_le_right _ _, rfl⟩,
    heal_amount_quarter_100, heal_amount_thirty_100⟩
  · intro hoff
    have heq : activate_ability w e ClassAbility.secondWind now =
        (Except.ok (), updateEnt w e (fun e0 =>
          stampAbilityCooldown now (applyHeal F32_QUARTER e0))) := by
      simp [activate_ability, hent, hoff]
    refine ⟨heq, ?_⟩
    rw [heq]
    show lookupA (updateEnt w e (fun e0 =>
      stampAbilityCooldown now (applyHeal F32_QUARTER e0))) e =
      some (stampAbilityCooldown now (applyHeal F32_QUARTER ent))
    rw [lookupA_updateEnt, if_pos rfl, hent]
    rfl
  · intro hoff
    have heq : activate_ability w e ClassAbility.healingWord now =
        (Except.ok (), updateEnt w e (fun e0 =>
          stampAbilityCooldown now (applyHeal F32_THIRTY_PERCENT e0))) := by
      simp [activate_ability, hent, hoff]
    refine ⟨heq, ?_⟩
    rw [heq]
    show lookupA (updateEnt w e (fun e0 =>
      stampAbilityCooldown now (applyHeal F32_THIRTY_PERCENT e0))) e =
      some (stampAbilityCooldown now (applyHeal F32_THIRTY_PERCENT ent))
    rw [lookupA_updateEnt, if_pos rfl, hent]
    rfl

/-- Witness for C7: a cleric at 10/100 HP with no recorded ability use casts
Healing Word at t = 77 and ends at exactly 10 + 30 = 40 current HP with the
ability cooldown stamped. -/
theorem activate_ability_heal_spec_witness :
    lookupA (activate_ability
        [(0, { cls := CharacterClass.cleric
               cooldowns := { attack := none, ability := none }
               health := { current := 10, max := 100 }
               stats := { str := 10, dex := 10, con := 12, int := 10
                          wis := 14, cha := 10 } })]
        0 ClassAbility.healingWord 77).2 0 =
      some { cls := CharacterClass.cleric
             cooldowns := { attack := none, ability := some 77 }
             health := { current := 40, max := 100 }
             stats := { str := 10, dex := 10, con := 12, int := 10
                        wis := 14, cha := 10 } } := by
  have h := ((activate_ability_heal_spec
      [(0, { cls := CharacterClass.cleric
             cooldowns := { attack := none, ability := none }
             health := { current := 10, max := 100 }
             stats := { str := 10, dex := 10, con := 12, int := 10
                        wis := 14, cha := 10 } })]
      0 77
      { cls := CharacterClass.cleric
        cooldowns := { attack := none, ability := none }
        health := { current := 10, max := 100 }
        stats := { str := 10, dex := 10, con := 12, int := 10
                   wis := 14, cha := 10 } }
      rfl).2.1 rfl).2
  rw [h]
  rw [show stampAbilityCooldown 77 (applyHeal F32_THIRTY_PERCENT
      { cls := CharacterClass.cleric
        cooldowns := { attack := none, ability := none }
        health := { current := 10, max := 100 }
        stats := { str := 10, dex := 10, con := 12, int := 10
                   wis := 14, cha := 10 } }) =
    { cls := CharacterClass.cleric
      cooldowns := { attack := none, ability := some 77 }
      health := { current := 40, max := 100 }
      stats := { str := 10, dex := 10, con := 12, int := 10
                 wis := 14, cha := 10 } } by
    rw [stampAbilityCooldown, applyHeal, heal_amount_thirty_100]
    norm_num]

/-- C8 (amended): `xp_for_level(1) = 0`, and `xp_for_level(n) = 300 * 3^(n-2)`
holds exactly for `2 <= n <= 16`; from level 17 on (still inside the
documented range [1, 20]) the `u32` product exceeds `2^32 - 1` and wraps
(release mode; debug mode panics), so the exact-arithmetic part of the claim
fails there. -/
theorem xp_for_level_spec :
    xp_for_level 1 = 0 ∧
    ∀ n, 2 ≤ n → n ≤ 16 → xp_for_level n = 300 * 3 ^ (n - 2) := by
  constructor
  · rfl
  · intro n h2 h16
    rw [xp_for_level, if_neg (by omega)]
    apply Nat.mod_eq_of_lt
    calc 300 * 3 ^ (n - 2) ≤ 300 * 3 ^ 14 := by
          apply Nat.mul_le_mul_left
          exact Nat.pow_le_pow_right (by norm_num) (by omega)
      _ < 2 ^ 32 := by norm_num

/-- Witness for C8's amended theorem at the largest exact level:
`xp_for_level 16 = 300 * 3^14`. -/
theorem xp_for_level_spec_witness :
    xp_for_level 16 = 300 * 3 ^ (16 - 2) :=
  xp_for_level_spec.2 16 (by norm_num) (by norm_num)

/-- Counterexample to C8 as stated: at level 17 — inside the documented range
[1, 20] — the `u32` computation wraps: `300 * 3^15 = 4 304 672 100` exceeds
`2^32 - 1 = 4 294 967 295`, and the function returns `9 704 804`, not the
claimed exact value. -/
theorem xp_for_level_overflow_cex :
    xp_for_level 17 = 9704804 ∧ 300 * 3 ^ (17 - 2) = 4304672100 ∧
    xp_for_level 17 ≠ 300 * 3 ^ (17 - 2) :=
  ⟨by decide, by norm_num, by decide⟩
